import Mathlib

/-!
Shallow embedding of `src/main.py` of woog-life/potsdam-scraper.

The scraper fetches a gauge-station HTML page, locates the table row whose
first cell mentions "Wassertemperatur", parses its temperature and timestamp
cells, rejects non-positive temperatures, and PUTs the reading to a backend.

Modelling conventions:
* HTML documents that the external parser (BeautifulSoup) would produce are
  modelled as a list of tables, each with a `summary` attribute and a list of
  rows, each row a list of `td` cell texts; the parser itself is an external
  collaborator and is passed in as a function `String → HtmlDoc`.
* Python floats are modelled as exact rationals `Rat`; the temperatures that
  occur are short decimal strings, where the two agree.
* An uncaught Python exception is `Except.error` with a descriptive message;
  a Python function returning `None` on a guarded failure path is `Option`.
* The network is passed in as data: a `FetchOutcome` for the single GET of
  `get_website`, and a function `PutRequest → PutOutcome` for `requests.put`
  (a `PutOutcome` is either a response or one of the connection errors the
  source catches).
-/

/-- Text of one `td` cell. A table row as produced by `row.find_all("td")`. -/
structure TableRow where
  cells : List String
deriving DecidableEq, Repr

/-- A `table` element: its `summary` attribute and its `tr` rows. -/
structure HtmlTable where
  summary : String
  rows : List TableRow
deriving DecidableEq, Repr

/-- A parsed document, reduced to the queryable structure the scraper uses:
its tables in document order. -/
structure HtmlDoc where
  tables : List HtmlTable
deriving DecidableEq, Repr

/-- The environment variables read at import time in `main.py`. `none` is an
unset variable. -/
structure Env where
  backendUrlVar : Option String
  backendPathVar : Option String
  uuidVar : Option String
  apiKeyVar : Option String
  tokenVar : Option String
  chatlistVar : Option String
deriving DecidableEq, Repr

/-- Python truthiness of an optional string: `None` and `""` are falsy. -/
def pyTruthy : Option String → Bool
  | none => false
  | some s => !s.isEmpty

/-- Python `a or default` for an optional string `a`: the default is used when
`a` is `None` or empty. -/
def pyOr (o : Option String) (d : String) : String :=
  match o with
  | none => d
  | some s => if s.isEmpty then d else s

/-- How Python renders an optional string inside an f-string or `format`:
`None` prints as `"None"`. -/
def optToStr : Option String → String
  | none => "None"
  | some s => s

/-- `BACKEND_URL = os.getenv("BACKEND_URL") or "http://api:80"` -/
def BACKEND_URL (env : Env) : String := pyOr env.backendUrlVar "http://api:80"

/-- `BACKEND_PATH = os.getenv("BACKEND_PATH") or "lake/{}/temperature"` -/
def BACKEND_PATH (env : Env) : String := pyOr env.backendPathVar "lake/{}/temperature"

/-- `UUID = os.getenv("POTSDAM_UUID")` -/
def UUID (env : Env) : Option String := env.uuidVar

/-- `API_KEY = os.getenv("API_KEY")` -/
def API_KEY (env : Env) : Option String := env.apiKeyVar

/-- The fixed source URL `TEMPERATURE_URL`. -/
def TEMPERATURE_URL : String :=
  "https://www.pegelonline.wsv.de/gast/stammdaten?pegelnr=580412"

/-! ### Python string primitives on character lists -/

/-- ASCII whitespace as stripped by Python `str.strip()`. -/
def isPySpace (c : Char) : Bool :=
  c = ' ' || c = '\t' || c = '\n' || c = '\r' || c = '\x0b' || c = '\x0c'

/-- Drop leading whitespace characters. -/
def dropSpaces : List Char → List Char
  | [] => []
  | c :: cs => if isPySpace c then dropSpaces cs else c :: cs

/-- Python `str.strip()` on a character list. -/
def pyStrip (cs : List Char) : List Char :=
  (dropSpaces (dropSpaces cs.reverse).reverse)

/-- `str.replace(",", ".")`: every comma becomes a period. -/
def commaToDot (cs : List Char) : List Char :=
  cs.map (fun c => if c = ',' then '.' else c)

/-- Does `hay` start with `pre`? -/
def listStartsWith : List Char → List Char → Bool
  | [], _ => true
  | _ :: _, [] => false
  | p :: ps, c :: cs => p = c && listStartsWith ps cs

/-- Python `needle in hay` on strings: contiguous-substring containment. -/
def containsSeq (needle : List Char) : List Char → Bool
  | [] => needle.isEmpty
  | c :: cs => listStartsWith needle (c :: cs) || containsSeq needle cs

/-- `pre` is a leading piece of the string `s`. -/
def strStartsWith (p s : String) : Bool := listStartsWith p.toList s.toList

/-- Python `str.format` with a single positional argument: the first `{}`
placeholder is replaced by `arg`. -/
def formatOne : List Char → List Char → List Char
  | [], _ => []
  | '{' :: '}' :: rest, arg => arg ++ rest
  | c :: rest, arg => c :: formatOne rest arg

/-- `template.format(arg)` for the single-placeholder templates used here. -/
def pyFormat (template arg : String) : String :=
  ⟨formatOne template.toList arg.toList⟩

/-! ### `float()`: Python float literal parsing (finite decimal forms)

`float(s)` on the strings produced by the scraper (sign, digits, optional
fractional part, optional exponent). Exotic accepted spellings (`inf`,
`nan`, digit underscores) are not produced by the page and are not modelled;
any string outside the modelled grammar parses to `none`, which in the
source is an uncaught `ValueError`. -/

/-- Leading decimal digits of a character list, and the rest. -/
def spanDigits : List Char → List Char × List Char
  | [] => ([], [])
  | c :: cs =>
    if c.isDigit then
      let (ds, rest) := spanDigits cs
      (c :: ds, rest)
    else ([], c :: cs)

/-- Numeric value of a digit list (most significant first). -/
def digitsToNat (ds : List Char) : Nat :=
  ds.foldl (fun acc c => 10 * acc + (c.toNat - '0'.toNat)) 0

/-- Optional sign; returns the sign as `1` or `-1` and the rest. -/
def takeSign : List Char → Int × List Char
  | '-' :: cs => (-1, cs)
  | '+' :: cs => (1, cs)
  | cs => (1, cs)

/-- Exponent suffix `e±ddd` (or nothing). `none` means a malformed trailing
part, `some k` a scale factor of `10 ^ k`. -/
def parseExpPart : List Char → Option Int
  | [] => some 0
  | 'e' :: cs =>
    let (sg, cs₁) := takeSign cs
    let (ds, rest) := spanDigits cs₁
    if ds.isEmpty || !rest.isEmpty then none else some (sg * digitsToNat ds)
  | 'E' :: cs =>
    let (sg, cs₁) := takeSign cs
    let (ds, rest) := spanDigits cs₁
    if ds.isEmpty || !rest.isEmpty then none else some (sg * digitsToNat ds)
  | _ => none

/-- The mantissa `digits [. digits]` with at least one digit somewhere,
followed by an optional exponent. Returns the exact rational value. -/
def parseMantissa (cs : List Char) : Option Rat :=
  let (ip, rest) := spanDigits cs
  match rest with
  | '.' :: rest₁ =>
    let (fp, rest₂) := spanDigits rest₁
    if ip.isEmpty && fp.isEmpty then none
    else
      match parseExpPart rest₂ with
      | none => none
      | some k =>
        some (((digitsToNat ip : Rat) + (digitsToNat fp : Rat) / ((10 : Rat) ^ fp.length))
          * (10 : Rat) ^ (k : Int))
  | _ =>
    if ip.isEmpty then none
    else
      match parseExpPart rest with
      | none => none
      | some k => some ((digitsToNat ip : Rat) * (10 : Rat) ^ (k : Int))

/-- Python `float(s)` on the modelled grammar, on an already-stripped string. -/
def parsePyFloat (cs : List Char) : Option Rat :=
  let (sg, cs₁) := takeSign cs
  match parseMantissa cs₁ with
  | none => none
  | some q => some ((sg : Rat) * q)

/-! ### The proleptic Gregorian calendar, as used by `datetime` -/

/-- Gregorian leap year. -/
def isLeap (y : Nat) : Bool := y % 4 = 0 && (y % 100 ≠ 0 || y % 400 = 0)

/-- Days in a month. -/
def daysInMonth (y m : Nat) : Nat :=
  if m = 2 then (if isLeap y then 29 else 28)
  else if m = 4 || m = 6 || m = 9 || m = 11 then 30
  else 31

/-- Days in the months strictly before month `m` of year `y`. -/
def daysBeforeMonth (y m : Nat) : Nat :=
  (List.range m).foldl (fun acc k => if k = 0 then acc else acc + daysInMonth y k) 0

/-- Days from 0001-01-01 (day 0) to the start of year `y`. -/
def daysBeforeYear (y : Nat) : Nat :=
  let n := y - 1
  n * 365 + n / 4 - n / 100 + n / 400

/-- Day number of a civil date, with 0001-01-01 as day 0 (like Python's
`datetime.toordinal() - 1`). -/
def dayNumber (y m d : Nat) : Nat :=
  daysBeforeYear y + daysBeforeMonth y m + (d - 1)

/-- Weekday of a day number, Monday = 0 … Sunday = 6 (0001-01-01 was a
Monday, as in Python's `datetime.weekday()`). -/
def weekdayOfDayNumber (n : Nat) : Nat := n % 7

/-- Civil date back from a day number (0001-01-01 = day 0), by the standard
era decomposition over 400-year cycles. -/
def civilFromDayNumber (n : Nat) : Nat × Nat × Nat :=
  let u := n + 306
  let era := u / 146097
  let doe := u % 146097
  let yoe := (doe - doe / 1460 + doe / 36524 - doe / 146096) / 365
  let doy := doe - (365 * yoe + yoe / 4 - yoe / 100)
  let mp := (5 * doy + 2) / 153
  let d := doy - (153 * mp + 2) / 5 + 1
  let m := if mp < 10 then mp + 3 else mp - 9
  let y := yoe + era * 400 + (if m ≤ 2 then 1 else 0)
  (y, m, d)

/-- A naive `datetime` as produced by `strptime` (seconds are zero for the
format used here). -/
structure NaiveDT where
  year : Nat
  month : Nat
  day : Nat
  hour : Nat
  minute : Nat
deriving DecidableEq, Repr

/-- Day of the last Sunday of month `m` (a 31-day month) of year `y`. -/
def lastSunday (y m : Nat) : Nat :=
  31 - ((weekdayOfDayNumber (dayNumber y m 31) + 1) % 7)

/-- Monotone key for comparing wall-clock instants within one year. -/
def tkey (mo d h mi : Nat) : Nat := ((mo * 32 + d) * 24 + h) * 60 + mi

/-- Europe/Berlin UTC offset in minutes for a naive wall-clock time, as pytz
`localize(…)` (with its default `is_dst=False`) resolves it for the modern
EU rule: CEST (+120) from the last Sunday of March 03:00 to the last Sunday
of October 02:00 wall clock, CET (+60) otherwise; ambiguous and nonexistent
times resolve to CET. -/
def berlinOffsetMin (dt : NaiveDT) : Nat :=
  let t := tkey dt.month dt.day dt.hour dt.minute
  if tkey 3 (lastSunday dt.year 3) 3 0 ≤ t && t < tkey 10 (lastSunday dt.year 10) 2 0
  then 120 else 60

/-- Left-pad a numeral to two digits. -/
def pad2 (n : Nat) : String := if n < 10 then "0" ++ toString n else toString n

/-- Left-pad a numeral to four digits. -/
def pad4 (n : Nat) : String :=
  if n < 10 then "000" ++ toString n
  else if n < 100 then "00" ++ toString n
  else if n < 1000 then "0" ++ toString n
  else toString n

/-- `local.localize(time).astimezone(pytz.utc).isoformat()`: interpret the
naive time as Europe/Berlin wall-clock time, re-express it in UTC and render
it as an ISO-8601 string with offset `+00:00`. -/
def berlinToUtcIso (dt : NaiveDT) : String :=
  let totalMin : Int :=
    (dayNumber dt.year dt.month dt.day : Int) * 1440 + dt.hour * 60 + dt.minute
      - berlinOffsetMin dt
  let dayN : Nat := (totalMin / 1440).toNat
  let rem : Nat := (totalMin % 1440).toNat
  let ymd := civilFromDayNumber dayN
  pad4 ymd.1 ++ "-" ++ pad2 ymd.2.1 ++ "-" ++ pad2 ymd.2.2 ++ "T" ++
    pad2 (rem / 60) ++ ":" ++ pad2 (rem % 60) ++ ":00+00:00"

/-! ### `strptime(s, "%d.%m.%Y %H:%M Uhr")` -/

/-- One or two leading digits and their value, or `none`. -/
def take2Digits (cs : List Char) : Option (Nat × List Char) :=
  let (ds, rest) := spanDigits cs
  if ds.length = 1 || ds.length = 2 then some (digitsToNat ds, rest) else none

/-- Exactly four leading digits and their value, or `none`. -/
def take4Digits (cs : List Char) : Option (Nat × List Char) :=
  let (ds, rest) := spanDigits cs
  if ds.length = 4 then some (digitsToNat ds, rest) else none

/-- `datetime.strptime(s, "%d.%m.%Y %H:%M Uhr")`: day and month as one or two
digits, a four-digit year, a 24-hour time, the literal suffix `" Uhr"`, and
nothing else; field ranges are validated as the `datetime` constructor does.
`none` is the uncaught `ValueError` of the source. -/
def strptimeDMYHM (cs : List Char) : Option NaiveDT :=
  match take2Digits cs with
  | none => none
  | some (d, r₁) =>
    match r₁ with
    | '.' :: r₂ =>
      match take2Digits r₂ with
      | none => none
      | some (mo, r₃) =>
        match r₃ with
        | '.' :: r₄ =>
          match take4Digits r₄ with
          | none => none
          | some (y, r₅) =>
            match r₅ with
            | ' ' :: r₆ =>
              match take2Digits r₆ with
              | none => none
              | some (h, r₇) =>
                match r₇ with
                | ':' :: r₈ =>
                  match take2Digits r₈ with
                  | none => none
                  | some (mi, r₉) =>
                    if r₉ = [' ', 'U', 'h', 'r'] &&
                       1 ≤ y && 1 ≤ mo && mo ≤ 12 && 1 ≤ d &&
                       d ≤ daysInMonth y mo && h ≤ 23 && mi ≤ 59
                    then some ⟨y, mo, d, h, mi⟩ else none
                | _ => none
            | _ => none
        | _ => none
    | _ => none

/-! ### The pipeline of `main.py` -/

/-- The substring that identifies the water-temperature row. -/
def wasserMarker : List Char := "Wassertemperatur".toList

/-- The table `summary` attribute searched for. -/
def summaryMarker : String := "Messwertgeber am Pegel"

/-- The matching test of the row scan in `extract_table_row`:
`columns and "Wassertemperatur" in columns[0].text`. -/
def rowMatches (r : TableRow) : Bool :=
  !r.cells.isEmpty && containsSeq wasserMarker (r.cells.headD "").toList

/-- `extract_table_row`: find the first table whose `summary` attribute is
`"Messwertgeber am Pegel"`; fail if it is absent or has fewer than five rows;
otherwise return the first row whose first cell contains
`"Wassertemperatur"`, or `none` when no row matches. -/
def extract_table_row (html : HtmlDoc) : Option TableRow :=
  match html.tables.find? (fun t => t.summary == summaryMarker) with
  | none => none
  | some table =>
    if table.rows.length < 5 then none
    else table.rows.find? rowMatches

/-- `get_water_information`: a row with fewer than three cells returns `None`;
otherwise cell 2 is parsed by `strptime` (`ValueError` when it fails),
localized in Europe/Berlin and re-expressed as a UTC ISO-8601 string, and
cell 1 is stripped, its comma replaced by a period, and parsed by `float()`
(`ValueError` when that fails). The result tuple is `(iso_time, temperature)`.
`Except.error` is an uncaught Python exception. -/
def get_water_information (row : TableRow) : Except String (Option (String × Rat)) :=
  if row.cells.length < 3 then .ok none
  else
    match strptimeDMYHM (pyStrip (row.cells.getD 2 "").toList) with
    | none => .error "ValueError: time data does not match format"
    | some dt =>
      let iso_time := berlinToUtcIso dt
      match parsePyFloat (commaToDot (pyStrip (row.cells.getD 1 "").toList)) with
      | none => .error "ValueError: could not convert string to float"
      | some temperature => .ok (some (iso_time, temperature))

/-- A JSON value of the request body. -/
inductive JsonV where
  | num (q : Rat)
  | str (s : String)
deriving DecidableEq, Repr

/-- The outbound PUT request: target URL, `Authorization` header value, and
JSON body as an ordered field list. -/
structure PutRequest where
  url : String
  authorization : String
  body : List (String × JsonV)
deriving DecidableEq, Repr

/-- A `requests` response, reduced to what the source reads. -/
structure HttpResponse where
  ok : Bool
  content : String
deriving DecidableEq, Repr

/-- Outcome of `requests.put`: a response, or one of the connection-level
exceptions that the source catches (`ConnectionError`, `gaierror`,
`MaxRetryError`). -/
inductive PutOutcome where
  | response (r : HttpResponse)
  | connError
deriving DecidableEq, Repr

/-- The backend target URL: `"/".join([BACKEND_URL, BACKEND_PATH.format(UUID)])`. -/
def backendTarget (env : Env) : String :=
  BACKEND_URL env ++ "/" ++ pyFormat (BACKEND_PATH env) (optToStr (UUID env))

/-- The request `send_data_to_backend` builds: bearer-token header and the
two-field JSON body `{"temperature": …, "time": …}`. -/
def mkPutRequest (env : Env) (water_timestamp : String) (water_temperature : Rat) :
    PutRequest :=
  ⟨backendTarget env, "Bearer " ++ optToStr (API_KEY env),
    [("temperature", .num water_temperature), ("time", .str water_timestamp)]⟩

/-- `send_data_to_backend`: a non-positive temperature short-circuits with
`(None, "water_temperature is <= 0, please approve this manually.")` and no
request; otherwise one PUT is issued, a caught connection error yields
`(None, url)`, and a response yields `(response, url)`. The second component
of the result is the list of PUT requests actually issued. -/
def send_data_to_backend (env : Env) (net : PutRequest → PutOutcome)
    (water_information : String × Rat) :
    ((Option HttpResponse × String) × List PutRequest) :=
  let url := backendTarget env
  let water_temperature := water_information.2
  if water_temperature ≤ 0 then
    ((none, "water_temperature is <= 0, please approve this manually."), [])
  else
    let req := mkPutRequest env water_information.1 water_temperature
    match net req with
    | .connError => ((none, url), [req])
    | .response r => ((some r, url), [req])

/-- Behaviour of the single `requests.get` of the run: the decoded content on
success, or the transport exception it raises. -/
inductive FetchOutcome where
  | success (content : String)
  | raise (exc : String)
deriving DecidableEq, Repr

/-- `get_website`: whenever `requests.get` returns, the function returns the
decoded content together with the literal success flag `True`; a transport
error is an uncaught exception. -/
def get_website (fb : FetchOutcome) : Except String (String × Bool) :=
  match fb with
  | .success content => .ok (content, true)
  | .raise e => .error e

/-- A network operation performed during a run. -/
inductive NetOp where
  | httpGet (url : String)
  | httpPut (req : PutRequest)
deriving DecidableEq, Repr

/-- A crude rendering of a document for the f-string `{soup}` interpolations
of `main` (the exact text is irrelevant to every property proved here). -/
def htmlDocText (doc : HtmlDoc) : String :=
  String.join (doc.tables.map (fun t =>
    t.summary ++ String.join (t.rows.map (fun r => String.join r.cells))))

/-- `main`, parameterized over the extraction function applied to the located
row (instantiated with `get_water_information` in `main`; the parameter makes
"extraction is never attempted" provable). Returns the `(success, message)`
outcome of `main` — `Except.error` when an uncaught exception escapes — and
the list of network operations performed. The `response.content` access in
the failure f-string of line 179 raises `AttributeError` when `response` is
`None`. -/
def mainWith (gwi : TableRow → Except String (Option (String × Rat)))
    (env : Env) (parse : String → HtmlDoc) (fb : FetchOutcome)
    (net : PutRequest → PutOutcome) :
    Except String (Bool × String) × List NetOp :=
  if !pyTruthy (UUID env) then (.ok (false, "POTSDAM_UUID not defined"), [])
  else if !pyTruthy (API_KEY env) then (.ok (false, "API_KEY not defined"), [])
  else
    match get_website fb with
    | .error e => (.error e, [.httpGet TEMPERATURE_URL])
    | .ok (content, success) =>
      if !success then
        (.ok (false, "Couldn't retrieve website: " ++ content), [.httpGet TEMPERATURE_URL])
      else
        let soup := parse content
        match extract_table_row soup with
        | none =>
          (.ok (false, "Couldn't find a row with 'Wassertemperatur' as a description"),
            [.httpGet TEMPERATURE_URL])
        | some temperature_row =>
          match gwi temperature_row with
          | .error e => (.error e, [.httpGet TEMPERATURE_URL])
          | .ok none =>
            (.ok (false, "Couldn't retrieve water information from " ++ htmlDocText soup),
              [.httpGet TEMPERATURE_URL])
          | .ok (some water_information) =>
            let sres := send_data_to_backend env net water_information
            let trace := .httpGet TEMPERATURE_URL :: sres.2.map .httpPut
            match sres.1.1 with
            | none =>
              (.error "AttributeError: NoneType object has no attribute content", trace)
            | some response =>
              if !response.ok then
                (.ok (false, "Failed to put data to backend: " ++ sres.1.2 ++ "\n"
                  ++ response.content), trace)
              else (.ok (true, ""), trace)

/-- `main` of the source (the name `main` itself is reserved in Lean):
`mainWith` applied to `get_water_information`. -/
def mainFn (env : Env) (parse : String → HtmlDoc) (fb : FetchOutcome)
    (net : PutRequest → PutOutcome) : Except String (Bool × String) × List NetOp :=
  mainWith get_water_information env parse fb net

/-- `send_telegram_alert`: without a token nothing is sent; otherwise one
message per chat-list entry, as `(chat_id, text)` pairs. -/
def send_telegram_alert (message : String) (token : Option String)
    (chatlist : List String) : List (String × String) :=
  if !pyTruthy token then []
  else chatlist.map (fun user => (user, "Error while executing: " ++ message))

/-- Observable end state of the process: an uncaught exception, or an exit
code together with the notifications sent. -/
inductive ProgramResult where
  | crashed (exc : String)
  | exited (code : Nat) (notifications : List (String × String))
deriving DecidableEq, Repr

/-- The module-level code after `main()` returns: on failure, one
`send_telegram_alert` call and `sys.exit(1)`; on success the process ends
with code 0; an exception escaping `main` crashes the process with no
notification. -/
def runProgram (env : Env) (parse : String → HtmlDoc) (fb : FetchOutcome)
    (net : PutRequest → PutOutcome) : ProgramResult :=
  match (mainFn env parse fb net).1 with
  | .error e => .crashed e
  | .ok (true, _) => .exited 0 []
  | .ok (false, message) =>
    .exited 1 (send_telegram_alert message env.tokenVar
      ((pyOr env.chatlistVar "139656428").splitOn ","))

/-! ### Concrete fixtures used by witnesses and counterexamples -/

/-- A fully configured environment. -/
def envEx : Env := ⟨none, none, some "abc-123", some "secret-key", some "tg-token", none⟩

/-- An environment with the station identifier unset. -/
def envNoUuid : Env := ⟨none, none, none, some "secret-key", some "tg-token", none⟩

/-- A well-formed water-temperature row as on the live page. -/
def goodRow : TableRow :=
  ⟨["Wassertemperatur [°C]", "18,4", "24.07.2023 14:30 Uhr"]⟩

/-- A water-temperature row whose temperature cell does not parse. -/
def badTempRow : TableRow :=
  ⟨["Wassertemperatur [°C]", "n/a", "24.07.2023 14:30 Uhr"]⟩

/-- A filler row that does not match the scan. -/
def fillerRow : TableRow := ⟨["Lufttemperatur", "21,0", "24.07.2023 14:30 Uhr"]⟩

/-- A row with no `td` cells at all. -/
def emptyRow : TableRow := ⟨[]⟩

/-- The measurement table around a given data row, with the summary attribute
of the live page and five rows. -/
def tableWith (r : TableRow) : HtmlTable :=
  ⟨"Messwertgeber am Pegel", [fillerRow, emptyRow, fillerRow, r, fillerRow]⟩

/-- A document containing the well-formed measurement table. -/
def docEx : HtmlDoc := ⟨[⟨"other", []⟩, tableWith goodRow]⟩

/-- A document whose water-temperature row has an unparsable temperature. -/
def docBadTemp : HtmlDoc := ⟨[tableWith badTempRow]⟩

/-- A document with no table carrying the searched summary attribute. -/
def docNoTable : HtmlDoc := ⟨[⟨"other", [goodRow]⟩]⟩

/-- A document whose measurement table has only four rows. -/
def docShortTable : HtmlDoc :=
  ⟨[⟨"Messwertgeber am Pegel", [fillerRow, emptyRow, goodRow, fillerRow]⟩]⟩

/-- A constant document parser: every content string parses to `doc`. -/
def parseConst (doc : HtmlDoc) : String → HtmlDoc := fun _ => doc

/-- A backend that accepts every request. -/
def netOk : PutRequest → PutOutcome := fun _ => .response ⟨true, "ok"⟩

/-- A backend whose every PUT raises a connection error. -/
def netConn : PutRequest → PutOutcome := fun _ => .connError

deriving instance DecidableEq for Except

/-- The parsed-but-unnormalized rational that `parsePyFloat` produces for the
cell text `18,4`, spelled out so that proofs can relate it to the literal
`18.4` by `norm_num` (kernel reduction cannot normalize `Rat` values). -/
def val184 : Rat :=
  ((1 : Int) : Rat) *
    ((((18 : Nat) : Rat) + ((4 : Nat) : Rat) / (10 : Rat) ^ (1 : Nat)) *
      (10 : Rat) ^ ((0 : Int)))

/-- Is a network operation a PUT? -/
def isPut : NetOp → Bool
  | .httpPut _ => true
  | .httpGet _ => false

/-! ### Claim theorems -/

/-- Claim C1: the validation rule of `send_data_to_backend` rejects a reading
exactly when its temperature is non-positive — a non-positive temperature
yields the manual-approval reason string and no outbound PUT request, while a
positive temperature is passed on to transmission as exactly the constructed
request. -/
theorem validation_rejects_iff_nonpositive (env : Env) (net : PutRequest → PutOutcome)
    (ts : String) (temp : Rat) :
    (temp ≤ 0 → send_data_to_backend env net (ts, temp) =
      ((none, "water_temperature is <= 0, please approve this manually."), [])) ∧
    (0 < temp →
      (send_data_to_backend env net (ts, temp)).2 = [mkPutRequest env ts temp]) ∧
    ((send_data_to_backend env net (ts, temp)).2 = [] ↔ temp ≤ 0) := by
  by_cases h : temp ≤ 0
  · refine ⟨fun _ => by simp [send_data_to_backend, h],
      fun hpos => absurd h (not_le.mpr hpos), ?_⟩
    simp [send_data_to_backend, h]
  · have hpos : 0 < temp := lt_of_not_le h
    refine ⟨fun hle => absurd hle h, fun _ => ?_, ?_⟩
    · simp only [send_data_to_backend, if_neg h]
      cases net (mkPutRequest env ts temp) <;> rfl
    · simp only [send_data_to_backend, if_neg h]
      constructor
      · intro habs
        cases hnet : net (mkPutRequest env ts temp) <;> rw [hnet] at habs <;> simp at habs
      · intro hle; exact absurd hle h

/-- Witness for C1 at the temperatures `-3/2` (rejected, no request) and
`1/100` (accepted, one request). -/
theorem validation_witness :
    send_data_to_backend envEx netOk ("2023-07-24T12:30:00+00:00", -(3/2 : Rat)) =
      ((none, "water_temperature is <= 0, please approve this manually."), []) ∧
    (send_data_to_backend envEx netOk ("2023-07-24T12:30:00+00:00", (1/100 : Rat))).2 =
      [mkPutRequest envEx "2023-07-24T12:30:00+00:00" (1/100 : Rat)] :=
  ⟨(validation_rejects_iff_nonpositive envEx netOk _ _).1 (by norm_num),
   (validation_rejects_iff_nonpositive envEx netOk _ _).2.1 (by norm_num)⟩

/-- Claim C2: on the row whose cells are `18,4` and `24.07.2023 14:30 Uhr`,
extraction yields temperature `18.4` and the UTC instant
`2023-07-24T12:30:00+00:00` (summer, UTC+2); on `24.12.2023 09:00 Uhr`
(winter, UTC+1) it yields `2023-12-24T08:00:00+00:00`; surrounding
whitespace in either cell is stripped. -/
theorem extraction_roundtrip_examples :
    get_water_information ⟨["Wassertemperatur [°C]", "18,4", "24.07.2023 14:30 Uhr"]⟩ =
      .ok (some ("2023-07-24T12:30:00+00:00", (18.4 : Rat))) ∧
    get_water_information ⟨["Wassertemperatur [°C]", "18,4", "24.12.2023 09:00 Uhr"]⟩ =
      .ok (some ("2023-12-24T08:00:00+00:00", (18.4 : Rat))) ∧
    get_water_information ⟨["x", "  18,4  ", "  24.07.2023 14:30 Uhr  "]⟩ =
      .ok (some ("2023-07-24T12:30:00+00:00", (18.4 : Rat))) := by
  have hv : val184 = (18.4 : Rat) := by unfold val184; norm_num
  have h1 : get_water_information ⟨["Wassertemperatur [°C]", "18,4", "24.07.2023 14:30 Uhr"]⟩ =
      .ok (some ("2023-07-24T12:30:00+00:00", val184)) := rfl
  have h2 : get_water_information ⟨["Wassertemperatur [°C]", "18,4", "24.12.2023 09:00 Uhr"]⟩ =
      .ok (some ("2023-12-24T08:00:00+00:00", val184)) := rfl
  have h3 : get_water_information ⟨["x", "  18,4  ", "  24.07.2023 14:30 Uhr  "]⟩ =
      .ok (some ("2023-07-24T12:30:00+00:00", val184)) := rfl
  rw [hv] at h1 h2 h3
  exact ⟨h1, h2, h3⟩

/-- Counterexample to claim C3: on a document whose located row carries the
unparsable temperature text `n/a`, the run does not report the parse failure
through the pipeline's success/failure outcome — it crashes with an uncaught
`ValueError` and the failure notifier is never invoked. -/
theorem parse_error_counterexample :
    runProgram envEx (parseConst docBadTemp) (.success "") netOk =
      .crashed "ValueError: could not convert string to float" := by decide

/-- Claim C3 as amended: when the located row's temperature or timestamp
text fails to parse, `get_water_information` raises an exception that
escapes `main` and the module entry point uncaught; the run aborts without a
failure notification instead of returning a labelled failure outcome. -/
theorem parse_error_escapes_uncaught (env : Env) (parse : String → HtmlDoc)
    (net : PutRequest → PutOutcome) (content : String) (row : TableRow) (e : String)
    (hu : pyTruthy (UUID env) = true) (hk : pyTruthy (API_KEY env) = true)
    (hrow : extract_table_row (parse content) = some row)
    (herr : get_water_information row = .error e) :
    mainFn env parse (.success content) net = (.error e, [.httpGet TEMPERATURE_URL]) ∧
    runProgram env parse (.success content) net = .crashed e := by
  have hm : mainFn env parse (.success content) net =
      (.error e, [.httpGet TEMPERATURE_URL]) := by
    unfold mainFn mainWith
    simp [hu, hk, get_website, hrow, herr]
  exact ⟨hm, by simp [runProgram, hm]⟩

/-- Witness for the amended C3 at the concrete bad-temperature document. -/
theorem parse_error_witness :
    mainFn envEx (parseConst docBadTemp) (.success "page") netOk =
      (.error "ValueError: could not convert string to float",
        [.httpGet TEMPERATURE_URL]) :=
  (parse_error_escapes_uncaught envEx (parseConst docBadTemp) netOk "page" badTempRow
    "ValueError: could not convert string to float"
    (by decide) (by decide) (by decide) (by decide)).1

/-- Claim C4: on a connection error during the PUT, `send_data_to_backend`
does return `(None, url)` with the target URL after exactly one attempt —
but the run then crashes with an `AttributeError` while formatting the
failure message (line 179 reads `response.content` with `response = None`),
so no failure notification is emitted before exit. -/
theorem transport_failure_crashes_unnotified :
    send_data_to_backend envEx netConn ("2023-07-24T12:30:00+00:00", (21 : Rat)) =
      ((none, backendTarget envEx),
        [mkPutRequest envEx "2023-07-24T12:30:00+00:00" (21 : Rat)]) ∧
    runProgram envEx (parseConst docEx) (.success "") netConn =
      .crashed "AttributeError: NoneType object has no attribute content" := by
  constructor
  · have h21 : ¬ ((21 : Rat) ≤ 0) := by norm_num
    simp [send_data_to_backend, netConn, h21]
  · have hroute : extract_table_row docEx = some goodRow := by decide
    have hgwi : get_water_information goodRow =
        .ok (some ("2023-07-24T12:30:00+00:00", val184)) := rfl
    have hpos : ¬ (val184 ≤ 0) := by unfold val184; norm_num
    have hu : pyTruthy (UUID envEx) = true := by decide
    have hk : pyTruthy (API_KEY envEx) = true := by decide
    unfold runProgram mainFn mainWith
    simp [hu, hk, get_website, parseConst, hroute, hgwi, send_data_to_backend, hpos, netConn]

/-- Claim C5: when the searched table is absent, or present with fewer than
five rows, `extract_table_row` reports not-found, and the run's behaviour is
independent of the extraction function — extraction is never attempted on
any row of such a document. -/
theorem structural_failure_skips_extraction (doc : HtmlDoc)
    (h : doc.tables.find? (fun t => t.summary == summaryMarker) = none ∨
      ∃ t, doc.tables.find? (fun t => t.summary == summaryMarker) = some t ∧
        t.rows.length < 5) :
    extract_table_row doc = none ∧
    ∀ (gwi gwi' : TableRow → Except String (Option (String × Rat)))
      (env : Env) (fb : FetchOutcome) (net : PutRequest → PutOutcome),
      mainWith gwi env (parseConst doc) fb net =
        mainWith gwi' env (parseConst doc) fb net := by
  have hx : extract_table_row doc = none := by
    rcases h with h | ⟨t, ht, h5⟩
    · simp [extract_table_row, h]
    · simp [extract_table_row, ht, h5]
  refine ⟨hx, fun gwi gwi' env fb net => ?_⟩
  unfold mainWith parseConst
  cases fb <;> simp [get_website, hx]

/-- Witness for C5 at a document with no matching table: locating fails and
two extraction functions that disagree everywhere give identical runs. -/
theorem structural_failure_witness :
    extract_table_row docNoTable = none ∧
    mainWith (fun _ => .ok none) envEx (parseConst docNoTable) (.success "") netOk =
      mainWith (fun _ => .error "boom") envEx (parseConst docNoTable) (.success "") netOk :=
  ⟨(structural_failure_skips_extraction docNoTable (Or.inl (by decide))).1,
   (structural_failure_skips_extraction docNoTable (Or.inl (by decide))).2
     _ _ envEx (.success "") netOk⟩

/-- Claim C6: once the table is found with at least five rows, the scan
returns the first row (in document order) whose first cell contains the
`Wassertemperatur` marker — every earlier row fails the match (rows with no
cells among them, which are skipped with scanning continuing) — and reports
not-found when no row matches. -/
theorem locate_scans_first_match (doc : HtmlDoc) (t : HtmlTable)
    (hf : doc.tables.find? (fun tb => tb.summary == summaryMarker) = some t)
    (h5 : ¬ t.rows.length < 5) :
    ((∀ r ∈ t.rows, rowMatches r = false) → extract_table_row doc = none) ∧
    (∀ r, extract_table_row doc = some r →
      rowMatches r = true ∧
      ∃ pre post, t.rows = pre ++ r :: post ∧ ∀ r' ∈ pre, rowMatches r' = false) := by
  have hx : extract_table_row doc = t.rows.find? rowMatches := by
    simp [extract_table_row, hf, h5]
  constructor
  · intro hnone
    rw [hx]
    exact List.find?_eq_none.mpr (fun x hmem => by simp [hnone x hmem])
  · intro r hr
    rw [hx] at hr
    obtain ⟨hpr, pre, post, hsplit, hprev⟩ := List.find?_eq_some.mp hr
    exact ⟨hpr, pre, post, hsplit, fun r' hr' => by simpa using hprev r' hr'⟩

/-- Witness for C6 at a table whose matching row sits behind a filler row
and a row with no cells. -/
theorem locate_witness :
    rowMatches goodRow = true ∧
    ∃ pre post, (tableWith goodRow).rows = pre ++ goodRow :: post ∧
      ∀ r' ∈ pre, rowMatches r' = false :=
  (locate_scans_first_match docEx (tableWith goodRow) (by decide) (by decide)).2
    goodRow (by decide)

/-- Claim C7: a candidate row exposing fewer than three cells makes
`get_water_information` return the explicit insufficient-columns failure
(`None` in the source, after logging `len(columns) < 3`) — no Reading, not
even a partial one, and no index fault. -/
theorem insufficient_columns_no_reading (row : TableRow) (h : row.cells.length < 3) :
    get_water_information row = .ok none := by
  simp [get_water_information, h]

/-- Witness for C7 at a two-cell row. -/
theorem insufficient_columns_witness :
    get_water_information ⟨["Wassertemperatur [°C]", "18,4"]⟩ = .ok none :=
  insufficient_columns_no_reading _ (by decide)

/-- Claim C8: with the station identifier or the API credential missing (or
empty), `main` fails with the corresponding configuration message and its
network trace is empty — no fetch and no backend write is performed. -/
theorem missing_config_aborts_before_network (env : Env) (parse : String → HtmlDoc)
    (fb : FetchOutcome) (net : PutRequest → PutOutcome)
    (h : pyTruthy (UUID env) = false ∨ pyTruthy (API_KEY env) = false) :
    (mainFn env parse fb net).2 = [] ∧
    ((mainFn env parse fb net).1 = .ok (false, "POTSDAM_UUID not defined") ∨
     (mainFn env parse fb net).1 = .ok (false, "API_KEY not defined")) := by
  cases hu : pyTruthy (UUID env) with
  | false =>
    unfold mainFn mainWith
    simp [hu]
  | true =>
    have hk : pyTruthy (API_KEY env) = false := by
      rcases h with h | h
      · rw [hu] at h; exact absurd h (by simp)
      · exact h
    unfold mainFn mainWith
    simp [hu, hk]

/-- Witness for C8 at an environment with no station identifier. -/
theorem missing_config_witness :
    (mainFn envNoUuid (parseConst docEx) (.success "") netOk).2 = [] ∧
    ((mainFn envNoUuid (parseConst docEx) (.success "") netOk).1 =
        .ok (false, "POTSDAM_UUID not defined") ∨
     (mainFn envNoUuid (parseConst docEx) (.success "") netOk).1 =
        .ok (false, "API_KEY not defined")) :=
  missing_config_aborts_before_network envNoUuid (parseConst docEx) (.success "") netOk
    (Or.inl (by decide))

/-- `send_data_to_backend` issues no request or exactly the one it builds. -/
theorem send_reqs_cases (env : Env) (net : PutRequest → PutOutcome)
    (wi : String × Rat) :
    (send_data_to_backend env net wi).2 = [] ∨
    (send_data_to_backend env net wi).2 = [mkPutRequest env wi.1 wi.2] := by
  by_cases h : wi.2 ≤ 0
  · left; simp [send_data_to_backend, h]
  · right
    simp only [send_data_to_backend, if_neg h]
    cases net (mkPutRequest env wi.1 wi.2) <;> rfl

/-- At most one PUT appears among the mapped requests of one send. -/
theorem send_put_count (env : Env) (net : PutRequest → PutOutcome)
    (wi : String × Rat) :
    ((send_data_to_backend env net wi).2.map NetOp.httpPut).countP isPut ≤ 1 := by
  rcases send_reqs_cases env net wi with h | h <;> rw [h] <;>
    simp [isPut, List.countP_cons]

/-- Every run of the pipeline performs at most one PUT, whatever the
extraction function. -/
theorem mainWith_put_count (gwi : TableRow → Except String (Option (String × Rat)))
    (env : Env) (parse : String → HtmlDoc) (fb : FetchOutcome)
    (net : PutRequest → PutOutcome) :
    ((mainWith gwi env parse fb net).2.countP isPut) ≤ 1 := by
  unfold mainWith
  cases hu : pyTruthy (UUID env) with
  | false => simp [hu]
  | true =>
    cases hk : pyTruthy (API_KEY env) with
    | false => simp [hu, hk]
    | true =>
      cases fb with
      | raise e => simp [hu, hk, get_website, isPut]
      | success content =>
        simp only [hu, hk, get_website, Bool.not_true, Bool.false_eq_true,
          if_false, reduceIte]
        cases hext : extract_table_row (parse content) with
        | none => simp [hext, isPut]
        | some row =>
          simp only [hext]
          cases hg : gwi row with
          | error e => simp [isPut]
          | ok o =>
            cases o with
            | none => simp [isPut]
            | some wi =>
              simp only []
              have hs := send_put_count env net wi
              cases hsr : (send_data_to_backend env net wi).1.1 with
              | none => simpa [isPut, List.countP_cons] using hs
              | some r =>
                cases hok : r.ok <;>
                  simpa [hok, isPut, List.countP_cons] using hs

/-- Claim C9: for an accepted (positive-temperature) reading, the publisher
issues exactly the PUT whose URL joins the base URL with the station-id
instantiation of the path template, whose `Authorization` header is
`Bearer <token>`, and whose JSON body holds exactly the fields
`temperature` and `time`; any run of the pipeline performs at most one PUT. -/
theorem publish_request_shape (env : Env) (net : PutRequest → PutOutcome)
    (ts : String) (temp : Rat) (h : 0 < temp) :
    (send_data_to_backend env net (ts, temp)).2 = [mkPutRequest env ts temp] ∧
    (mkPutRequest env ts temp).url =
      BACKEND_URL env ++ "/" ++ pyFormat (BACKEND_PATH env) (optToStr (UUID env)) ∧
    (mkPutRequest env ts temp).authorization = "Bearer " ++ optToStr (API_KEY env) ∧
    (mkPutRequest env ts temp).body =
      [("temperature", .num temp), ("time", .str ts)] ∧
    ∀ (parse : String → HtmlDoc) (fb : FetchOutcome),
      ((mainFn env parse fb net).2.countP isPut) ≤ 1 := by
  refine ⟨?_, rfl, rfl, rfl,
    fun parse fb => mainWith_put_count get_water_information env parse fb net⟩
  simp only [send_data_to_backend, if_neg (not_le.mpr h)]
  cases net (mkPutRequest env ts temp) <;> rfl

/-- Witness for C9 at temperature `21`. -/
theorem publish_request_witness :
    (send_data_to_backend envEx netOk ("2023-07-24T12:30:00+00:00", (21 : Rat))).2 =
      [mkPutRequest envEx "2023-07-24T12:30:00+00:00" (21 : Rat)] ∧
    ((mainFn envEx (parseConst docEx) (.success "") netOk).2.countP isPut) ≤ 1 :=
  ⟨(publish_request_shape envEx netOk "2023-07-24T12:30:00+00:00" 21 (by norm_num)).1,
   (publish_request_shape envEx netOk "2023-07-24T12:30:00+00:00" 21
     (by norm_num)).2.2.2.2 (parseConst docEx) (.success "")⟩

/-- The water-information failure message never carries the fetch-failure
label, whatever the document text. -/
theorem waterinfo_msg_not_website (s : String) :
    strStartsWith "Couldn't retrieve website"
      ("Couldn't retrieve water information from " ++ s) = false := by
  obtain ⟨l⟩ := s
  rfl

/-- The backend-failure message never carries the fetch-failure label. -/
theorem backend_msg_not_website (s t : String) :
    strStartsWith "Couldn't retrieve website"
      ("Failed to put data to backend: " ++ s ++ "\n" ++ t) = false := by
  obtain ⟨ls⟩ := s
  obtain ⟨lt⟩ := t
  rfl

/-- Claim C10: `get_website` returns the success flag `True` whenever it
returns at all; consequently no failing run of `main` ever carries the
`Couldn't retrieve website` message (that branch is unreachable), and a
transport error during the GET surfaces as an exception escaping the
fetcher rather than a reported fetch failure. -/
theorem fetch_failure_branch_unreachable :
    (∀ (fb : FetchOutcome) (c : String) (b : Bool),
      get_website fb = .ok (c, b) → b = true) ∧
    (∀ (env : Env) (parse : String → HtmlDoc) (fb : FetchOutcome)
      (net : PutRequest → PutOutcome) (m : String),
      (mainFn env parse fb net).1 = .ok (false, m) →
      strStartsWith "Couldn't retrieve website" m = false) ∧
    (∀ (env : Env) (parse : String → HtmlDoc) (net : PutRequest → PutOutcome)
      (e : String), pyTruthy (UUID env) = true → pyTruthy (API_KEY env) = true →
      mainFn env parse (.raise e) net = (.error e, [.httpGet TEMPERATURE_URL])) := by
  refine ⟨?_, ?_, ?_⟩
  · intro fb c b h
    cases fb with
    | success c₀ => simp [get_website] at h; exact h.2
    | raise e => simp [get_website] at h
  · intro env parse fb net m h
    unfold mainFn mainWith at h
    cases hu : pyTruthy (UUID env) with
    | false =>
      simp [hu] at h
      rw [← h]
      decide
    | true =>
      cases hk : pyTruthy (API_KEY env) with
      | false =>
        simp [hu, hk] at h
        rw [← h]
        decide
      | true =>
        cases fb with
        | raise e => simp [hu, hk, get_website] at h
        | success content =>
          simp only [hu, hk, get_website, Bool.not_true, Bool.false_eq_true,
            if_false, reduceIte] at h
          split at h
          · simp at h
            rw [← h]
            decide
          · split at h
            · simp at h
            · simp at h
              rw [← h]
              exact waterinfo_msg_not_website _
            · split at h
              · simp at h
              · split at h
                · simp at h
                  rw [← h]
                  exact backend_msg_not_website _ _
                · simp at h
  · intro env parse net e hu hk
    unfold mainFn mainWith
    simp [hu, hk, get_website]

/-- Witness for C10: a concrete successful fetch carries flag `True`, the
configuration-failure message does not carry the fetch-failure label, and a
concrete raising fetch escapes `main` as that exception. -/
theorem fetch_flag_witness :
    (true = true) ∧
    strStartsWith "Couldn't retrieve website" "POTSDAM_UUID not defined" = false ∧
    mainFn envEx (parseConst docEx) (.raise "boom") netConn =
      (.error "boom", [.httpGet TEMPERATURE_URL]) :=
  ⟨fetch_failure_branch_unreachable.1 (.success "x") "x" true rfl,
   fetch_failure_branch_unreachable.2.1 envNoUuid (parseConst docEx) (.success "")
     netOk "POTSDAM_UUID not defined" (by decide),
   fetch_failure_branch_unreachable.2.2 envEx (parseConst docEx) netConn "boom"
     (by decide) (by decide)⟩
